import Mathlib

/-!
Verification of the SRE incident-response workflow
(`src/entities/sre_incident/workflow.py`) against its natural-language
specification.  The five stage handlers are translated directly from the
Python source; the surrounding workflow engine (graph dispatch, the
pending-request table and the resume protocol) is an external dependency of
the repository and is modelled from the specification where needed.

Machine-level conventions: Python dict lookups become association-list
lookups evaluated in insertion order; Python `%` on ints becomes `Int.emod`
(both give a non-negative remainder for a positive modulus); JSON metric
blobs are modelled as finite maps from keys to rationals, and `json.loads`
is an explicit function parameter (`none` models a `JSONDecodeError`);
`hash()` is an explicit function parameter returning an arbitrary integer;
`datetime.now().isoformat()` is an explicit `now : String` parameter.
-/

/-! ## Elementary string machinery (used by the translated handlers) -/

/-- Decides whether `p` is an initial segment of `l` (Python `startswith`
at the character-list level). -/
def seqStarts (p l : List Char) : Bool :=
  match p, l with
  | [], _ => true
  | _ :: _, [] => false
  | c :: cs, a :: as => c == a && seqStarts cs as

/-- Decides whether `pat` occurs as a contiguous block of `l` (Python's
substring test `pat in s` at the character-list level). -/
def seqInside (pat : List Char) : List Char → Bool
  | [] => pat.isEmpty
  | a :: as => seqStarts pat (a :: as) || seqInside pat as

/-- Python `s.startswith(pat)`. -/
def strStarts (s pat : String) : Bool := seqStarts pat.data s.data

/-- Python `pat in s` (substring containment). -/
def strContains (s pat : String) : Bool := seqInside pat.data s.data

/-- Python `s.endswith(pat)`. -/
def strEnds (s pat : String) : Bool := seqStarts pat.data.reverse s.data.reverse

/-- Python `sep.join(parts)`. -/
def joinSep (sep : String) : List String → String
  | [] => ""
  | [x] => x
  | x :: y :: xs => x ++ sep ++ joinSep sep (y :: xs)

/-- Python `s.upper()` (character-wise, as in the source's ASCII data). -/
def upperStr (s : String) : String := ⟨s.data.map Char.toUpper⟩

/-- Python `s.lower()` (character-wise, as in the source's ASCII data). -/
def lowerStr (s : String) : String := ⟨s.data.map Char.toLower⟩

/-- The last whitespace-separated word of `s`: Python `s.split()[-1]` for
the space-separated approval literals it is applied to. -/
def lastWord (s : String) : String :=
  ⟨s.data.foldl (fun acc c => if c == ' ' then [] else acc ++ [c]) []⟩

/-- First-match lookup in an association list, mirroring a Python `dict`
lookup with the dict written down in insertion order. -/
def lookupStr (m : List (String × String)) (key : String) : Option String :=
  match m with
  | [] => none
  | (k, v) :: rest => if k = key then some v else lookupStr rest key

/-! ## Data model (translated from the `workflow.py` dataclasses/models) -/

/-- The four alert severities admitted by `AlertInput.severity`
(a `Literal["critical", "high", "medium", "low"]` in the source). -/
inductive Severity
  | critical
  | high
  | medium
  | low
deriving DecidableEq

/-- The string rendering of a `Severity` literal. -/
def Severity.toStr : Severity → String
  | .critical => "critical"
  | .high => "high"
  | .medium => "medium"
  | .low => "low"

/-- A parsed JSON metrics blob: keys mapped to numeric gauges (the
pipeline's metric dicts are numeric-valued). -/
abbrev Metrics := List (String × ℚ)

/-- Python `metrics.get(k, 0)` on a parsed metrics dict. -/
def getMetric (m : Metrics) (k : String) : ℚ :=
  ((m.find? (fun kv => decide (kv.1 = k))).map Prod.snd).getD 0

/-- `AlertInput` (pydantic model): the incoming alert.  `metrics` is the
raw JSON string exactly as in the source. -/
structure AlertInput where
  alert_id : String := "ALT-2026-0131-001"
  title : String := "Database Server CPU Critical"
  severity : Severity := .critical
  description : String := "vm-db-01 CPU utilization exceeded 90% for more than 5 minutes"
  source : String := "Azure Monitor"
  resource : String := "vm-db-01"
  metrics : String := "\x7b\"cpu_percent\": 94.7, \"memory_percent\": 88.5\x7d"

/-- `ProcessedAlert` dataclass: validated and enriched alert data. -/
structure ProcessedAlert where
  alert_id : String
  title : String
  severity : String
  description : String
  source : String
  resource : String
  metrics : Metrics
  received_at : String
  is_valid : Bool
  validation_errors : List String

/-- `TriageResult` dataclass: result of incident triage analysis. -/
structure TriageResult where
  alert : ProcessedAlert
  incident_severity : String
  incident_title : String
  summary : String
  affected_services : List String
  recommended_actions : List String
  assigned_team : String
  runbook_url : String
  priority : String

/-- The `Literal` values admitted by `TriageApproval.approved`. -/
inductive ApprovalChoice
  | approve
  | override_to_sev1
  | override_to_sev2
  | override_to_sev3
deriving DecidableEq

/-- The string rendering of an `ApprovalChoice` literal. -/
def ApprovalChoice.toStr : ApprovalChoice → String
  | .approve => "approve"
  | .override_to_sev1 => "override to sev1"
  | .override_to_sev2 => "override to sev2"
  | .override_to_sev3 => "override to sev3"

/-- `TriageApproval` (pydantic model): human approval for the triage. -/
structure TriageApproval where
  approved : ApprovalChoice
  notes : String := ""

/-- `GitHubIssue` dataclass: created GitHub issue details. -/
structure GitHubIssue where
  triage : TriageResult
  issue_number : Int
  issue_url : String
  labels : List String
  created_at : String

/-- `TeamsNotification` dataclass: Teams posting result. -/
structure TeamsNotification where
  github_issue : GitHubIssue
  channel : String
  message_id : String
  posted_at : String
  success : Bool

/-! ## Stage 1: `AlertProcessor.process_alert` -/

/-- `AlertProcessor.process_alert`, translated from the source.
`jsonLoads` stands for `json.loads` on the metrics string (`none` models a
`JSONDecodeError`, in which case the handler falls back to the empty
dict); `now` stands for `datetime.now().isoformat()`. -/
def process_alert (jsonLoads : String → Option Metrics) (alert : AlertInput)
    (now : String) : ProcessedAlert :=
  let metrics := (jsonLoads alert.metrics).getD []
  let validation_errors :=
    (if alert.alert_id = "" then ["Missing alert_id"] else []) ++
    (if alert.title = "" then ["Missing title"] else []) ++
    (if ["critical", "high", "medium", "low"].contains alert.severity.toStr
      then [] else ["Invalid severity: " ++ alert.severity.toStr])
  { alert_id := alert.alert_id
    title := alert.title
    severity := alert.severity.toStr
    description := alert.description
    source := alert.source
    resource := alert.resource
    metrics := metrics
    received_at := now
    is_valid := validation_errors.isEmpty
    validation_errors := validation_errors }

/-! ## Stage 2: `IncidentTriageExecutor` -/

/-- The `severity_map` dict of `triage_alert`. -/
def severity_map : List (String × String) :=
  [("critical", "sev1"), ("high", "sev2"), ("medium", "sev3"), ("low", "sev4")]

/-- The `priority_map` dict of `triage_alert`. -/
def priority_map : List (String × String) :=
  [("sev1", "P1"), ("sev2", "P2"), ("sev3", "P3"), ("sev4", "P4")]

/-- The `SERVICE_TEAMS` class dict in insertion order. -/
def SERVICE_TEAMS : List (String × String) :=
  [("vm-db", "platform-sre-team"), ("vm-prod", "backend-team"),
   ("vm-api", "api-team"), ("vm-cache", "platform-team")]

/-- The `RUNBOOKS` class dict in insertion order. -/
def RUNBOOKS : List (String × String) :=
  [("cpu", "https://wiki.contoso.com/runbooks/high-cpu"),
   ("memory", "https://wiki.contoso.com/runbooks/high-memory"),
   ("disk", "https://wiki.contoso.com/runbooks/disk-space"),
   ("network", "https://wiki.contoso.com/runbooks/network-issues"),
   ("default", "https://wiki.contoso.com/runbooks/general-triage")]

/-- The `TriageResult` value built by `IncidentTriageExecutor.triage_alert`
before it decides between `request_info` and `send_message`.  Each `let`
mirrors the corresponding assignment in the source; the first-match loops
over `SERVICE_TEAMS` and `RUNBOOKS` become `find?` over the dicts in
insertion order, and `priority_map[incident_severity]` (whose key always
exists, so the Python indexing cannot raise) becomes a lookup with an
unreachable fallback. -/
def triage_of (alert : ProcessedAlert) : TriageResult :=
  let incident_severity := (lookupStr severity_map alert.severity).getD "sev3"
  let assigned_team :=
    ((SERVICE_TEAMS.find? (fun kv => strStarts alert.resource kv.1)).map
      Prod.snd).getD "platform-sre-team"
  let affected_services :=
    if strContains alert.resource "db" then
      ["database-primary", "order-service", "inventory-service"]
    else if strContains alert.resource "api" then
      ["api-gateway", "payment-service"]
    else if strContains alert.resource "cache" then
      ["redis-cache", "session-service"]
    else [alert.resource]
  let runbook_url :=
    ((RUNBOOKS.find? (fun kv =>
        strContains (lowerStr alert.title) kv.1 ||
        strContains (lowerStr alert.description) kv.1)).map Prod.snd).getD
      "https://wiki.contoso.com/runbooks/general-triage"
  let recommended_actions :=
    (if getMetric alert.metrics "cpu_percent" > 90 then
      ["Check for runaway processes", "Consider scaling up or out"] else []) ++
    (if getMetric alert.metrics "memory_percent" > 85 then
      ["Identify memory-intensive queries", "Check for memory leaks"] else [])
  let recommended_actions :=
    if recommended_actions.isEmpty then
      ["Review recent deployments", "Check system logs for errors"]
    else recommended_actions
  { alert := alert
    incident_severity := incident_severity
    incident_title := "[" ++ upperStr incident_severity ++ "] " ++ alert.title
    summary := alert.description ++ ". Resource: " ++ alert.resource ++
      ". Current metrics show elevated " ++
      joinSep ", " ((alert.metrics.filter (fun kv => decide (kv.2 > 80))).map Prod.fst) ++ "."
    affected_services := affected_services
    recommended_actions := recommended_actions
    assigned_team := assigned_team
    runbook_url := runbook_url
    priority := (lookupStr priority_map incident_severity).getD "" }

/-- Outcome of `triage_alert`: either a `ctx.request_info` call carrying
the triage (suspending for approval) or a plain `ctx.send_message`. -/
inductive TriageOutcome
  | requestApproval (t : TriageResult)
  | send (t : TriageResult)

/-- `IncidentTriageExecutor.triage_alert`: builds the triage and requests
human approval for sev1/sev2 incidents, otherwise sends it downstream. -/
def triage_alert (alert : ProcessedAlert) : TriageOutcome :=
  let triage := triage_of alert
  if ["sev1", "sev2"].contains triage.incident_severity then
    .requestApproval triage
  else
    .send triage

/-- `IncidentTriageExecutor.handle_approval` (the `@response_handler`):
applies a severity override when the approval starts with `"override"`,
taking the last word of the approval as the new severity.  The Python
`{"sev1": "P1", "sev2": "P2", "sev3": "P3"}[new_severity]` indexing (whose
key always exists for the admitted approval literals) becomes a lookup
with an unreachable fallback. -/
def handle_approval (original_triage : TriageResult)
    (response : TriageApproval) : TriageResult :=
  if strStarts response.approved.toStr "override" then
    let new_severity := lastWord response.approved.toStr
    { original_triage with
      incident_severity := new_severity
      incident_title := "[" ++ upperStr new_severity ++ "] " ++ original_triage.alert.title
      priority := (lookupStr [("sev1", "P1"), ("sev2", "P2"), ("sev3", "P3")]
        new_severity).getD "" }
  else original_triage

/-! ## Stage 3: `GitHubIssueCreator.create_issue` -/

/-- `GitHubIssueCreator.create_issue`, translated from the source.
`hashVal` stands for Python's `hash(triage.alert.alert_id)` (an arbitrary,
possibly negative integer); Python `%` on a positive modulus and
`Int.emod` agree, both returning a non-negative remainder. -/
def create_issue (triage : TriageResult) (hashVal : Int) (now : String) :
    GitHubIssue :=
  let issue_number : Int := hashVal % 10000 + 1000
  let labels :=
    ["severity:" ++ triage.incident_severity,
     "priority:" ++ triage.priority,
     "incident",
     triage.assigned_team]
  { triage := triage
    issue_number := issue_number
    issue_url := "https://github.com/contoso/incidents/issues/" ++ toString issue_number
    labels := labels
    created_at := now }

/-! ## Stage 4: `TeamsNotifier.notify_teams` -/

/-- The `channel_map` dict of `notify_teams`. -/
def channel_map : List (String × String) :=
  [("sev1", "#incident-critical"), ("sev2", "#incident-high"),
   ("sev3", "#ops-alerts"), ("sev4", "#ops-info")]

/-- `TeamsNotifier.notify_teams`, translated from the source.  `hashVal`
stands for Python's `hash(issue.issue_url)`. -/
def notify_teams (issue : GitHubIssue) (hashVal : Int) (now : String) :
    TeamsNotification :=
  let channel := (lookupStr channel_map issue.triage.incident_severity).getD "#ops-alerts"
  { github_issue := issue
    channel := channel
    message_id := "msg-" ++ toString (hashVal % 100000)
    posted_at := now
    success := true }

/-! ## Stage 5: `IncidentReporter.generate_report` -/

/-- The `severity_emoji` dict of `generate_report`. -/
def severity_emoji : List (String × String) :=
  [("sev1", "🔴"), ("sev2", "🟠"), ("sev3", "🟡"), ("sev4", "🔵")]

/-- The affected-services block of the report: the f-string fragment
`chr(10) + '   • '.join(triage.affected_services)` (by Python precedence,
a newline followed by the `'   • '`-join of the services). -/
def reportServices (services : List String) : String :=
  "\n" ++ joinSep "   • " services

/-- The recommended-actions fragment of the report: the conditional
expression `chr(10) + '   2. '.join(actions[:2]) if len(actions) > 1 else
actions[0] if actions else 'Review logs'`. -/
def reportActions (actions : List String) : String :=
  match actions with
  | [] => "Review logs"
  | [a] => a
  | a :: b :: _ => "\n" ++ (a ++ "   2. " ++ b)

/-- `IncidentReporter.generate_report`: the final report string yielded as
the run's terminal output.  The source builds it as one f-string and
applies `.strip()`; since the template begins with a literal newline and
ends with literal whitespace while the first interpolation (an emoji) and
the final box-drawing line are never whitespace, the strip removes exactly
those literal affixes, and the translation writes the stripped string
directly. -/
def generate_report (notification : TeamsNotification) : String :=
  let issue := notification.github_issue
  let triage := issue.triage
  let emoji := (lookupStr severity_emoji triage.incident_severity).getD "⚪"
  emoji ++ " INCIDENT RESPONSE COMPLETE " ++ emoji ++
  "\n════════════════════════════════════════\n\n📋 Incident: " ++
  triage.incident_title ++
  "\n🎫 Ticket: #" ++ toString issue.issue_number ++
  "\n🔗 GitHub: " ++ issue.issue_url ++
  "\n\n📊 Classification:\n   • Severity: " ++
  upperStr triage.incident_severity ++
  "\n   • Priority: " ++ triage.priority ++
  "\n   • Assigned: " ++ triage.assigned_team ++
  "\n\n⚠️ Affected Services:\n   • " ++
  reportServices triage.affected_services ++
  "\n\n📝 Summary:\n   " ++ triage.summary ++
  "\n\n✅ Recommended Actions:\n   1. " ++
  reportActions triage.recommended_actions ++
  "\n\n📚 Runbook: " ++ triage.runbook_url ++
  "\n\n💬 Teams Notification:\n   • Channel: " ++ notification.channel ++
  "\n   • Status: " ++ (if notification.success then "✓ Posted" else "✗ Failed") ++
  "\n\n════════════════════════════════════════"

/-! ## Workflow graph and runner

The graph (executors, edges, start executor) is translated from the
`WorkflowBuilder` calls at the bottom of `workflow.py`.  The engine that
drives it (the `agent_framework` dependency) is not part of this
repository, so its dispatch loop, suspension protocol and pending-request
table are modelled from the specification (spec sections 4.1 to 4.4). -/

/-- The five executor ids registered in `workflow.py` (each `Executor` is
constructed with the matching string id). -/
inductive ExecId
  | alert_processor
  | incident_triage
  | github_creator
  | teams_notifier
  | incident_reporter
deriving DecidableEq

/-- The string id each executor is constructed with in the source. -/
def ExecId.name : ExecId → String
  | .alert_processor => "alert_processor"
  | .incident_triage => "incident_triage"
  | .github_creator => "github_creator"
  | .teams_notifier => "teams_notifier"
  | .incident_reporter => "incident_reporter"

/-- The edges of the workflow, in declaration order of the `add_edge`
calls in the source. -/
def edges : List (ExecId × ExecId) :=
  [(.alert_processor, .incident_triage),
   (.incident_triage, .github_creator),
   (.github_creator, .teams_notifier),
   (.teams_notifier, .incident_reporter)]

/-- The `set_start_executor` argument in the source. -/
def startExecutor : ExecId := .alert_processor

/-- Modelled from the spec: routing takes the first edge out of `src` in
declaration order (spec 4.2; the reference graph is case-free, so every
edge is an unconditional default edge). -/
def edgeTarget (src : ExecId) : Option ExecId :=
  (edges.find? (fun e => decide (e.1 = src))).map Prod.snd

/-- A message flowing along an edge, tagged with its payload type (one
constructor per payload type exchanged by the reference pipeline). -/
inductive Msg
  | alert (a : AlertInput)
  | processed (p : ProcessedAlert)
  | triage (t : TriageResult)
  | issue (i : GitHubIssue)
  | notif (n : TeamsNotification)

/-- The type tag of a message. -/
inductive MsgTy
  | tAlert
  | tProcessed
  | tTriage
  | tIssue
  | tNotif
deriving DecidableEq

/-- The type tag carried by a message. -/
def msgTy : Msg → MsgTy
  | .alert _ => .tAlert
  | .processed _ => .tProcessed
  | .triage _ => .tTriage
  | .issue _ => .tIssue
  | .notif _ => .tNotif

/-- The message type each executor's `@handler` is declared for in the
source (the annotated first parameter of the handler). -/
def acceptsTy : ExecId → MsgTy
  | .alert_processor => .tAlert
  | .incident_triage => .tProcessed
  | .github_creator => .tTriage
  | .teams_notifier => .tIssue
  | .incident_reporter => .tNotif

/-- The message type each executor's handler sends downstream, read off
the `WorkflowContext[...]` annotation in the source; `none` for the
terminal reporter, whose context is `WorkflowContext[Never, str]` (it only
yields a terminal string). -/
def sendsTy : ExecId → Option MsgTy
  | .alert_processor => some .tProcessed
  | .incident_triage => some .tTriage
  | .github_creator => some .tIssue
  | .teams_notifier => some .tNotif
  | .incident_reporter => none

/-- Errors of the engine's taxonomy that the modelled runner can surface
(spec section 7), plus fuel exhaustion, an artifact of running the
modelled dispatch loop with a recursion bound (never reached on the
five-stage reference graph). -/
inductive EngineError
  | UnroutableMessage
  | NoMatchingRoute
  | UnknownOrExpiredRequest
  | fuelExhausted
deriving DecidableEq

/-- What one handler invocation does with a delivered message: send a
message downstream, open an approval request (`ctx.request_info`), yield
terminal output, or fail (`UnroutableMessage` when the executor has no
handler for the message's type, spec 4.1). -/
inductive StepOut
  | send (m : Msg)
  | requestApproval (t : TriageResult)
  | yieldOut (s : String)
  | fail (e : EngineError)

/-- Modelled from the spec: dispatch of a message to an executor (spec
4.1).  Each matching line invokes the translated source handler for that
executor; a type mismatch is an `UnroutableMessage` configuration error.
`jl`, `ph`, `now` stand for `json.loads`, Python `hash`, and
`datetime.now().isoformat()`. -/
def execHandle (jl : String → Option Metrics) (ph : String → Int)
    (now : String) : ExecId → Msg → StepOut
  | .alert_processor, .alert a => .send (.processed (process_alert jl a now))
  | .incident_triage, .processed p =>
      match triage_alert p with
      | .requestApproval t => .requestApproval t
      | .send t => .send (.triage t)
  | .github_creator, .triage t =>
      .send (.issue (create_issue t (ph t.alert.alert_id) now))
  | .teams_notifier, .issue i =>
      .send (.notif (notify_teams i (ph i.issue_url) now))
  | .incident_reporter, .notif n => .yieldOut (generate_report n)
  | _, _ => .fail .UnroutableMessage

/-- Result of driving one branch of a run to quiescence (spec 4.4): either
suspended with the list of open pending requests (each recording its
origin executor and request payload), completed with the yielded outputs,
or failed. -/
inductive LoopResult
  | suspended (pending : List (ExecId × TriageResult))
  | completed (outputs : List String)
  | failed (e : EngineError)

/-- Modelled from the spec: the runner's dispatch loop (spec sections 2
and 4).  Starting from a message delivered to an executor, it invokes the
handler, routes a sent message along the first matching edge, surfaces a
`request_info` call as a suspension carrying the single open pending
request, and collects a yielded output as the branch's terminal result.
`fuel` bounds the recursion depth (the reference graph is a five-stage
DAG, so any fuel of at least five is never exhausted).  The returned list
is the dispatch trace: the executors that handled messages, in order. -/
def runLoop (jl : String → Option Metrics) (ph : String → Int) (now : String) :
    Nat → ExecId → Msg → List ExecId × LoopResult
  | 0, _, _ => ([], .failed .fuelExhausted)
  | fuel + 1, ex, m =>
    match execHandle jl ph now ex m with
    | .send m' =>
      match edgeTarget ex with
      | some nxt =>
        let res := runLoop jl ph now fuel nxt m'
        (ex :: res.1, res.2)
      | none => ([ex], .failed .NoMatchingRoute)
    | .requestApproval t => ([ex], .suspended [(ex, t)])
    | .yieldOut s => ([ex], .completed [s])
    | .fail e => ([ex], .failed e)

/-- Modelled from the spec: submitting an initial message delivers it to
the start executor (spec section 6, "Submit run").  Returns the dispatch
trace together with the run's observable result. -/
def submitRun (jl : String → Option Metrics) (ph : String → Int)
    (now : String) (alert : AlertInput) : List ExecId × LoopResult :=
  runLoop jl ph now 10 startExecutor (.alert alert)

/-- Modelled from the spec: resolving a pending request invokes the origin
executor's response handler on the recorded request payload and the
supplied response, and routes its output exactly as an ordinary handler
output (spec 4.3). -/
def resumeFrom (jl : String → Option Metrics) (ph : String → Int)
    (now : String) (origin : ExecId) (t : TriageResult)
    (response : TriageApproval) : List ExecId × LoopResult :=
  match edgeTarget origin with
  | some nxt => runLoop jl ph now 10 nxt (.triage (handle_approval t response))
  | none => ([], .failed .NoMatchingRoute)

/-- Modelled from the spec: a full run of the reference pipeline — submit
the alert and, if the run suspends for approval, resolve the pending
request with `response` and continue.  The trace concatenates the
dispatch trace of the submission with that of the resumption. -/
def fullRun (jl : String → Option Metrics) (ph : String → Int) (now : String)
    (alert : AlertInput) (response : TriageApproval) :
    List ExecId × LoopResult :=
  let s := submitRun jl ph now alert
  match s.2 with
  | .suspended ((origin, t) :: _) =>
    let r := resumeFrom jl ph now origin t response
    (s.1 ++ r.1, r.2)
  | _ => s

/-! ## The pending-request table

Modelled from the spec (sections 3 and 4.3): engine-held state mapping an
open correlation id to the origin executor and original request payload
(the expected response type is statically `TriageApproval` for the
reference pipeline). -/

/-- Modelled from the spec: one open entry of the `PendingRequestTable`. -/
structure PendingEntry where
  cid : Nat
  origin : ExecId
  payload : TriageResult

/-- Looks up the open entry for a correlation id. -/
def findReq : List PendingEntry → Nat → Option PendingEntry
  | [], _ => none
  | e :: rest, cid => if e.cid = cid then some e else findReq rest cid

/-- Removes the entry (or entries) for a correlation id. -/
def removeReq : List PendingEntry → Nat → List PendingEntry
  | [], _ => []
  | e :: rest, cid =>
    if e.cid = cid then removeReq rest cid else e :: removeReq rest cid

/-- Modelled from the spec: the run state held by the engine across a
suspension: the open pending requests, the outputs yielded so far, and
(for stating the idempotency guard) how many times a response handler has
been invoked. -/
structure EngineRun where
  pending : List PendingEntry
  outputs : List String
  responseHandlerCalls : Nat

/-- Modelled from the spec: the resume call (spec 4.3).  An unknown or
already-consumed correlation id is rejected with
`UnknownOrExpiredRequest`; on success the entry is removed from the table
and the origin executor's response handler is invoked, its outputs routed
downstream as usual. -/
def resumeById (jl : String → Option Metrics) (ph : String → Int)
    (now : String) (st : EngineRun) (cid : Nat) (response : TriageApproval) :
    Except EngineError EngineRun :=
  match findReq st.pending cid with
  | none => .error .UnknownOrExpiredRequest
  | some entry =>
    let res := resumeFrom jl ph now entry.origin entry.payload response
    .ok { pending := removeReq st.pending cid
          outputs := st.outputs ++
            (match res.2 with | .completed outs => outs | _ => [])
          responseHandlerCalls := st.responseHandlerCalls + 1 }

/-! ## Helper lemmas about the string machinery -/

theorem seqStarts_append (p r : List Char) : seqStarts p (p ++ r) = true := by
  induction p with
  | nil => rfl
  | cons c cs ih => simp [seqStarts, ih]

theorem seqInside_nil_pat (l : List Char) : seqInside [] l = true := by
  cases l with
  | nil => rfl
  | cons a as => simp [seqInside, seqStarts]

theorem seqInside_append_self (p r : List Char) :
    seqInside p (p ++ r) = true := by
  cases p with
  | nil => exact seqInside_nil_pat r
  | cons c cs =>
    have h := seqStarts_append (c :: cs) r
    simp only [List.cons_append] at h ⊢
    simp [seqInside, h]

theorem seqInside_append_left (pat x t : List Char)
    (h : seqInside pat t = true) : seqInside pat (x ++ t) = true := by
  induction x with
  | nil => simpa using h
  | cons c cs ih => simp [seqInside, ih]

theorem data_append (s t : String) : (s ++ t).data = s.data ++ t.data := rfl

theorem strContains_self_pre (p y : String) : strContains (p ++ y) p = true := by
  show seqInside p.data (p ++ y).data = true
  rw [data_append]
  exact seqInside_append_self p.data y.data

theorem strContains_skip (x t p : String) (h : strContains t p = true) :
    strContains (x ++ t) p = true := by
  show seqInside p.data (x ++ t).data = true
  rw [data_append]
  exact seqInside_append_left p.data x.data t.data h

theorem strEnds_append (x y : String) : strEnds (x ++ y) y = true := by
  show seqStarts y.data.reverse (x ++ y).data.reverse = true
  rw [data_append, List.reverse_append]
  exact seqStarts_append y.data.reverse x.data.reverse

/-! ## Concrete scenario data (the source defaults) -/

/-- The default alert of `AlertInput` (every field at its source default):
severity `critical`, resource `vm-db-01`, metrics blob with
`cpu_percent` 94.7. -/
def defaultAlert : AlertInput := {}

/-- The dict `json.loads` produces from the default metrics blob:
`cpu_percent` 94.7 and `memory_percent` 88.5. -/
def defaultMetrics : Metrics := [("cpu_percent", 947/10), ("memory_percent", 885/10)]

/-! ## Shared lemmas about the translated handlers -/

/-- The validation errors collected by `process_alert` are exactly the
missing-field entries: the severity check never fires because every
`Severity` literal renders into the allowed list. -/
theorem process_alert_validation_errors (jl : String → Option Metrics)
    (alert : AlertInput) (now : String) :
    (process_alert jl alert now).validation_errors =
      (if alert.alert_id = "" then ["Missing alert_id"] else []) ++
      (if alert.title = "" then ["Missing title"] else []) := by
  obtain ⟨id, title, sev, desc, src, res, met⟩ := alert
  cases sev <;> simp [process_alert, Severity.toStr]

/-- `is_valid` is the emptiness of the collected validation errors. -/
theorem process_alert_is_valid (jl : String → Option Metrics)
    (alert : AlertInput) (now : String) :
    (process_alert jl alert now).is_valid =
      ((if alert.alert_id = "" then ["Missing alert_id"] else []) ++
       (if alert.title = "" then ["Missing title"] else [])).isEmpty := by
  obtain ⟨id, title, sev, desc, src, res, met⟩ := alert
  cases sev <;> simp [process_alert, Severity.toStr]

/-- Every reference-pipeline run driven to completion (resolving the
approval request if one is opened) completes with exactly one yielded
output, whatever the input alert, metrics parse, hash function and
approval response. -/
theorem fullRun_completes (jl : String → Option Metrics) (ph : String → Int)
    (now : String) (alert : AlertInput) (response : TriageApproval) :
    ∃ out, (fullRun jl ph now alert response).2 = .completed [out] := by
  obtain ⟨id, title, sev, desc, src, res, met⟩ := alert
  cases sev <;> exact ⟨_, rfl⟩

/-- C8: if the metrics blob fails to parse as JSON, `process_alert` falls
back to the empty dict and neither the validation errors nor the validity
flag are affected (they coincide with those of the same alert under any
other parse outcome). -/
theorem metrics_parse_failure_recovered (jl jl' : String → Option Metrics)
    (alert : AlertInput) (now : String) (h : jl alert.metrics = none) :
    (process_alert jl alert now).metrics = [] ∧
    (process_alert jl alert now).validation_errors =
      (process_alert jl' alert now).validation_errors ∧
    (process_alert jl alert now).is_valid = (process_alert jl' alert now).is_valid := by
  refine ⟨by simp [process_alert, h], ?_, ?_⟩
  · rw [process_alert_validation_errors, process_alert_validation_errors]
  · rw [process_alert_is_valid, process_alert_is_valid]

/-- Witness for `metrics_parse_failure_recovered` at a concrete alert
whose metrics string parses to nothing. -/
theorem metrics_parse_failure_recovered_witness :
    (process_alert (fun _ => none) { metrics := "not json" } "T").metrics = [] ∧
    (process_alert (fun _ => none) { metrics := "not json" } "T").validation_errors =
      (process_alert (fun _ => some defaultMetrics) { metrics := "not json" } "T").validation_errors ∧
    (process_alert (fun _ => none) { metrics := "not json" } "T").is_valid =
      (process_alert (fun _ => some defaultMetrics) { metrics := "not json" } "T").is_valid :=
  metrics_parse_failure_recovered (fun _ => none) (fun _ => some defaultMetrics)
    { metrics := "not json" } "T" rfl

/-- C9: the processed alert is invalid exactly when `alert_id` or `title`
is empty, and no "Invalid severity" error can ever be recorded, since
`AlertInput` restricts the severity to the four allowed literals. -/
theorem is_valid_iff_fields_present (jl : String → Option Metrics)
    (alert : AlertInput) (now : String) :
    ((process_alert jl alert now).is_valid = false ↔
      alert.alert_id = "" ∨ alert.title = "") ∧
    ∀ e ∈ (process_alert jl alert now).validation_errors,
      strStarts e "Invalid severity" = false := by
  rw [process_alert_is_valid, process_alert_validation_errors]
  by_cases hid : alert.alert_id = "" <;> by_cases htitle : alert.title = "" <;>
    simp [hid, htitle] <;> decide

/-- Witness for `is_valid_iff_fields_present` at the default alert. -/
theorem is_valid_iff_fields_present_witness :
    (((process_alert (fun _ => some defaultMetrics) defaultAlert "T").is_valid = false ↔
      defaultAlert.alert_id = "" ∨ defaultAlert.title = "") ∧
     ∀ e ∈ (process_alert (fun _ => some defaultMetrics) defaultAlert "T").validation_errors,
       strStarts e "Invalid severity" = false) :=
  is_valid_iff_fields_present (fun _ => some defaultMetrics) defaultAlert "T"

/-- C10: for every triage and every hash value (Python hashes can be
negative, but `%` with a positive modulus is non-negative), the simulated
GitHub issue has its number in `[1000, 10999]`, a URL ending in that
number, and exactly four labels including "incident". -/
theorem issue_number_in_range (t : TriageResult) (hv : Int) (now : String) :
    1000 ≤ (create_issue t hv now).issue_number ∧
    (create_issue t hv now).issue_number ≤ 10999 ∧
    strEnds (create_issue t hv now).issue_url
      (toString (create_issue t hv now).issue_number) = true ∧
    (create_issue t hv now).labels.length = 4 ∧
    "incident" ∈ (create_issue t hv now).labels := by
  refine ⟨?_, ?_, ?_, rfl, .tail _ (.tail _ (.head _))⟩
  · show (1000 : Int) ≤ hv % 10000 + 1000
    omega
  · show hv % 10000 + 1000 ≤ (10999 : Int)
    omega
  · exact strEnds_append _ _

/-- C3: a low- (or medium-) severity alert completes in one submission,
with a single output and no pending request: the triage executor sends
its result downstream instead of calling `request_info`. -/
theorem low_medium_completes_without_request (jl : String → Option Metrics)
    (ph : String → Int) (now : String) (alert : AlertInput)
    (h : alert.severity = .low ∨ alert.severity = .medium) :
    (∃ t, triage_alert (process_alert jl alert now) = .send t) ∧
    ∃ out, (submitRun jl ph now alert).2 = .completed [out] := by
  obtain ⟨id, title, sev, desc, src, res, met⟩ := alert
  rcases h with h | h <;> cases h <;> exact ⟨⟨_, rfl⟩, _, rfl⟩

/-- Witness for `low_medium_completes_without_request` at a concrete
low-severity alert. -/
theorem low_medium_completes_without_request_witness :
    (∃ t, triage_alert (process_alert (fun _ => some defaultMetrics)
      { severity := .low } "T") = .send t) ∧
    ∃ out, (submitRun (fun _ => some defaultMetrics) (fun _ => 0) "T"
      { severity := .low }).2 = .completed [out] :=
  low_medium_completes_without_request (fun _ => some defaultMetrics)
    (fun _ => 0) "T" { severity := .low } (Or.inl rfl)

/-- C5: an alert with an empty `alert_id` or an empty `title` does not
abort the run: each problem is recorded in the processed record's
validation errors, `is_valid` is set to false, and the record still flows
downstream so the run completes (resolving the approval request if the
severity opens one). -/
theorem malformed_fields_recoverable (jl : String → Option Metrics)
    (ph : String → Int) (now : String) (alert : AlertInput)
    (response : TriageApproval)
    (h : alert.alert_id = "" ∨ alert.title = "") :
    (alert.alert_id = "" →
      "Missing alert_id" ∈ (process_alert jl alert now).validation_errors) ∧
    (alert.title = "" →
      "Missing title" ∈ (process_alert jl alert now).validation_errors) ∧
    (process_alert jl alert now).is_valid = false ∧
    ∃ out, (fullRun jl ph now alert response).2 = .completed [out] := by
  rw [process_alert_validation_errors, process_alert_is_valid]
  refine ⟨fun hid => ?_, fun htitle => ?_, ?_, fullRun_completes jl ph now alert response⟩
  · simp [hid]
  · simp [htitle]
  · rcases h with h | h <;> simp [h]

/-- An alert whose id and title are both empty (all other fields at their
defaults). -/
def emptyAlert : AlertInput := { alert_id := "", title := "" }

/-- Witness for `malformed_fields_recoverable` at a concrete alert with
an empty id and an empty title. -/
theorem malformed_fields_recoverable_witness :
    (emptyAlert.alert_id = "" →
      "Missing alert_id" ∈
        (process_alert (fun _ => some defaultMetrics) emptyAlert "T").validation_errors) ∧
    (emptyAlert.title = "" →
      "Missing title" ∈
        (process_alert (fun _ => some defaultMetrics) emptyAlert "T").validation_errors) ∧
    (process_alert (fun _ => some defaultMetrics) emptyAlert "T").is_valid = false ∧
    ∃ out, (fullRun (fun _ => some defaultMetrics) (fun _ => 0) "T" emptyAlert
      ⟨.approve, ""⟩).2 = .completed [out] :=
  malformed_fields_recoverable (fun _ => some defaultMetrics) (fun _ => 0) "T"
    emptyAlert ⟨.approve, ""⟩ (Or.inl rfl)

theorem seqStarts_extend (p l t : List Char) (h : seqStarts p l = true) :
    seqStarts p (l ++ t) = true := by
  induction p generalizing l with
  | nil => rfl
  | cons c cs ih =>
    cases l with
    | nil => simp [seqStarts] at h
    | cons a as =>
      simp only [seqStarts, Bool.and_eq_true] at h
      simp only [List.cons_append, seqStarts, Bool.and_eq_true]
      exact ⟨h.1, ih as h.2⟩

theorem seqInside_append_right (pat x t : List Char)
    (h : seqInside pat x = true) : seqInside pat (x ++ t) = true := by
  induction x with
  | nil =>
    simp only [seqInside, List.isEmpty_iff] at h
    subst h
    exact seqInside_nil_pat t
  | cons a as ih =>
    simp only [seqInside, Bool.or_eq_true] at h
    rcases h with h | h
    · simp only [List.cons_append, seqInside, Bool.or_eq_true]
      exact Or.inl (seqStarts_extend pat (a :: as) t h)
    · simp only [List.cons_append, seqInside, Bool.or_eq_true]
      exact Or.inr (ih h)

theorem strContains_refl (p : String) : strContains p p = true := by
  have h := seqInside_append_self p.data []
  simpa using h

theorem strContains_skip_right (x t p : String)
    (h : strContains x p = true) : strContains (x ++ t) p = true := by
  show seqInside p.data (x ++ t).data = true
  rw [data_append]
  exact seqInside_append_right p.data x.data t.data h

theorem strContains_self_suf (x p : String) : strContains (x ++ p) p = true := by
  show seqInside p.data (x ++ p).data = true
  rw [data_append]
  exact seqInside_append_left p.data x.data p.data (strContains_refl p)

/-- The report always displays the incident severity in upper case. -/
theorem generate_report_contains_severity (n : TeamsNotification) :
    strContains (generate_report n)
      (upperStr n.github_issue.triage.incident_severity) = true := by
  simp only [generate_report]
  iterate 17 apply strContains_skip_right
  exact strContains_self_suf _ _

/-- The report always displays the incident priority. -/
theorem generate_report_contains_priority (n : TeamsNotification) :
    strContains (generate_report n) n.github_issue.triage.priority = true := by
  simp only [generate_report]
  iterate 15 apply strContains_skip_right
  exact strContains_self_suf _ _

/-- C1: submitting the default critical alert (severity "critical",
resource "vm-db-01", metrics blob with `cpu_percent` 94.7) suspends the
run with exactly one pending request, held by the triage executor, whose
payload is classified `sev1` with priority `P1`; resuming it with
"approve" completes the run with a single output that embeds the `sev1`
classification (rendered `SEV1`) and the `P1` priority. -/
theorem critical_roundtrip_approve (jl : String → Option Metrics)
    (ph : String → Int) (now : String) (notes : String)
    (hjl : jl defaultAlert.metrics = some defaultMetrics) :
    ∃ t out,
      (submitRun jl ph now defaultAlert).2 = .suspended [(.incident_triage, t)] ∧
      t.incident_severity = "sev1" ∧ t.priority = "P1" ∧
      t.alert.metrics = defaultMetrics ∧
      (fullRun jl ph now defaultAlert ⟨.approve, notes⟩).2 = .completed [out] ∧
      strContains out "SEV1" = true ∧
      strContains out "P1" = true := by
  refine ⟨_, _, rfl, rfl, rfl, ?_, rfl, ?_, ?_⟩
  · show (jl defaultAlert.metrics).getD [] = defaultMetrics
    rw [hjl]
    rfl
  · exact generate_report_contains_severity _
  · exact generate_report_contains_priority _

/-- Witness for `critical_roundtrip_approve` at a concrete `json.loads`
and hash model. -/
theorem critical_roundtrip_approve_witness :
    ∃ t out,
      (submitRun (fun _ => some defaultMetrics) (fun _ => 0) "T" defaultAlert).2 =
        .suspended [(.incident_triage, t)] ∧
      t.incident_severity = "sev1" ∧ t.priority = "P1" ∧
      t.alert.metrics = defaultMetrics ∧
      (fullRun (fun _ => some defaultMetrics) (fun _ => 0) "T" defaultAlert
        ⟨.approve, ""⟩).2 = .completed [out] ∧
      strContains out "SEV1" = true ∧
      strContains out "P1" = true :=
  critical_roundtrip_approve (fun _ => some defaultMetrics) (fun _ => 0) "T" "" rfl

/-- C2: for the same default critical alert, resuming the pending request
with "override to sev2" completes the run with the override propagated to
every downstream stage: the rewritten triage is `sev2`/`P2`, the GitHub
issue labels carry `severity:sev2` and `priority:P2`, the Teams channel is
the sev2 channel `#incident-high`, and the final report embeds `SEV2` and
`P2`. -/
theorem critical_roundtrip_override_sev2 (jl : String → Option Metrics)
    (ph : String → Int) (now : String) (notes : String)
    (hjl : jl defaultAlert.metrics = some defaultMetrics) :
    ∃ t,
      (submitRun jl ph now defaultAlert).2 = .suspended [(.incident_triage, t)] ∧
      t.incident_severity = "sev1" ∧
      t.alert.metrics = defaultMetrics ∧
      ∀ t' issue notifn,
        t' = handle_approval t ⟨.override_to_sev2, notes⟩ →
        issue = create_issue t' (ph t'.alert.alert_id) now →
        notifn = notify_teams issue (ph issue.issue_url) now →
        t'.incident_severity = "sev2" ∧ t'.priority = "P2" ∧
        t'.incident_title = "[SEV2] " ++ defaultAlert.title ∧
        issue.labels = ["severity:sev2", "priority:P2", "incident", "platform-sre-team"] ∧
        notifn.channel = "#incident-high" ∧
        (fullRun jl ph now defaultAlert ⟨.override_to_sev2, notes⟩).2 =
          .completed [generate_report notifn] ∧
        strContains (generate_report notifn) "SEV2" = true ∧
        strContains (generate_report notifn) "P2" = true := by
  refine ⟨_, rfl, rfl, ?_, ?_⟩
  · show (jl defaultAlert.metrics).getD [] = defaultMetrics
    rw [hjl]
    rfl
  · rintro t' issue notifn rfl rfl rfl
    refine ⟨rfl, rfl, rfl, rfl, rfl, rfl, ?_, ?_⟩
    · exact generate_report_contains_severity _
    · exact generate_report_contains_priority _

/-- Witness for `critical_roundtrip_override_sev2` at a concrete
`json.loads` and hash model. -/
theorem critical_roundtrip_override_sev2_witness :
    ∃ t,
      (submitRun (fun _ => some defaultMetrics) (fun _ => 0) "T" defaultAlert).2 =
        .suspended [(.incident_triage, t)] ∧
      t.incident_severity = "sev1" ∧
      t.alert.metrics = defaultMetrics ∧
      ∀ t' issue notifn,
        t' = handle_approval t ⟨.override_to_sev2, ""⟩ →
        issue = create_issue t' ((fun _ => (0 : Int)) t'.alert.alert_id) "T" →
        notifn = notify_teams issue ((fun _ => (0 : Int)) issue.issue_url) "T" →
        t'.incident_severity = "sev2" ∧ t'.priority = "P2" ∧
        t'.incident_title = "[SEV2] " ++ defaultAlert.title ∧
        issue.labels = ["severity:sev2", "priority:P2", "incident", "platform-sre-team"] ∧
        notifn.channel = "#incident-high" ∧
        (fullRun (fun _ => some defaultMetrics) (fun _ => 0) "T" defaultAlert
          ⟨.override_to_sev2, ""⟩).2 = .completed [generate_report notifn] ∧
        strContains (generate_report notifn) "SEV2" = true ∧
        strContains (generate_report notifn) "P2" = true :=
  critical_roundtrip_override_sev2 (fun _ => some defaultMetrics) (fun _ => 0) "T" "" rfl

/-- C6: on any input whatsoever, the executors that handle messages along
the pipeline's single path, in dispatch order, are exactly the edge
declaration chain: alert_processor, incident_triage, github_creator,
teams_notifier, incident_reporter.  The trace is a function of the run,
so it is the same across runs. -/
theorem dispatch_order_matches_declaration (jl : String → Option Metrics)
    (ph : String → Int) (now : String) (alert : AlertInput)
    (response : TriageApproval) :
    (fullRun jl ph now alert response).1 = startExecutor :: edges.map Prod.snd ∧
    startExecutor :: edges.map Prod.snd =
      [.alert_processor, .incident_triage, .github_creator,
       .teams_notifier, .incident_reporter] ∧
    (fullRun jl ph now alert response).1.map ExecId.name =
      ["alert_processor", "incident_triage", "github_creator",
       "teams_notifier", "incident_reporter"] := by
  obtain ⟨id, title, sev, desc, src, res, met⟩ := alert
  cases sev <;> exact ⟨rfl, rfl, rfl⟩

/-- Witness for `dispatch_order_matches_declaration` at the default
alert. -/
theorem dispatch_order_matches_declaration_witness :
    (fullRun (fun _ => some defaultMetrics) (fun _ => 0) "T" defaultAlert
      ⟨.approve, ""⟩).1 = startExecutor :: edges.map Prod.snd ∧
    startExecutor :: edges.map Prod.snd =
      [.alert_processor, .incident_triage, .github_creator,
       .teams_notifier, .incident_reporter] ∧
    (fullRun (fun _ => some defaultMetrics) (fun _ => 0) "T" defaultAlert
      ⟨.approve, ""⟩).1.map ExecId.name =
      ["alert_processor", "incident_triage", "github_creator",
       "teams_notifier", "incident_reporter"] :=
  dispatch_order_matches_declaration (fun _ => some defaultMetrics) (fun _ => 0)
    "T" defaultAlert ⟨.approve, ""⟩

/-- C7: the declared type chain of the pipeline.  Along every declared
edge, the source's sent message type equals the target handler's declared
input type (enumerated: AlertInput to alert_processor which sends
ProcessedAlert, consumed by incident_triage which sends TriageResult,
consumed by github_creator which sends GitHubIssue, consumed by
teams_notifier which sends TeamsNotification, consumed by
incident_reporter which sends nothing and yields a terminal string);
dynamically, whatever the input values, every message a handler sends
carries exactly its declared output type, a handler fails with a routing
error exactly on a message whose type it does not declare, and no run of
the reference pipeline ever fails. -/
theorem stage_types_chain (jl : String → Option Metrics) (ph : String → Int)
    (now : String) :
    (∀ e ∈ edges, sendsTy e.1 = some (acceptsTy e.2)) ∧
    (acceptsTy .alert_processor = .tAlert ∧
     sendsTy .alert_processor = some .tProcessed ∧
     acceptsTy .incident_triage = .tProcessed ∧
     sendsTy .incident_triage = some .tTriage ∧
     acceptsTy .github_creator = .tTriage ∧
     sendsTy .github_creator = some .tIssue ∧
     acceptsTy .teams_notifier = .tIssue ∧
     sendsTy .teams_notifier = some .tNotif ∧
     acceptsTy .incident_reporter = .tNotif ∧
     sendsTy .incident_reporter = none) ∧
    (∀ ex m m', execHandle jl ph now ex m = .send m' →
      sendsTy ex = some (msgTy m')) ∧
    (∀ ex m, (∃ e, execHandle jl ph now ex m = .fail e) ↔
      acceptsTy ex ≠ msgTy m) ∧
    (∀ alert response e,
      (fullRun jl ph now alert response).2 ≠ .failed e) := by
  refine ⟨by decide, by decide, ?_, ?_, ?_⟩
  · intro ex m m' hsend
    cases ex <;> cases m <;>
      first
      | (simp [execHandle] at hsend
         done)
      | (simp only [execHandle] at hsend
         injection hsend with h
         subst h
         rfl)
      | (rename_i p
         simp only [execHandle] at hsend
         rcases htr : triage_alert p with t | t <;> rw [htr] at hsend
         · injection hsend
         · injection hsend with h
           subst h
           rfl)
  · intro ex m
    cases ex <;> cases m <;>
      first
      | (simp [execHandle, acceptsTy, msgTy]
         done)
      | (rename_i p
         rcases htr : triage_alert p with t | t <;>
           simp [execHandle, htr, acceptsTy, msgTy])
  · intro alert response e
    obtain ⟨out, hc⟩ := fullRun_completes jl ph now alert response
    rw [hc]
    simp

/-- Witness for `stage_types_chain` at a concrete `json.loads` and hash
model. -/
theorem stage_types_chain_witness :
    (∀ e ∈ edges, sendsTy e.1 = some (acceptsTy e.2)) ∧
    (acceptsTy .alert_processor = .tAlert ∧
     sendsTy .alert_processor = some .tProcessed ∧
     acceptsTy .incident_triage = .tProcessed ∧
     sendsTy .incident_triage = some .tTriage ∧
     acceptsTy .github_creator = .tTriage ∧
     sendsTy .github_creator = some .tIssue ∧
     acceptsTy .teams_notifier = .tIssue ∧
     sendsTy .teams_notifier = some .tNotif ∧
     acceptsTy .incident_reporter = .tNotif ∧
     sendsTy .incident_reporter = none) ∧
    (∀ ex m m', execHandle (fun _ => some defaultMetrics) (fun _ => 0) "T" ex m = .send m' →
      sendsTy ex = some (msgTy m')) ∧
    (∀ ex m, (∃ e, execHandle (fun _ => some defaultMetrics) (fun _ => 0) "T" ex m = .fail e) ↔
      acceptsTy ex ≠ msgTy m) ∧
    (∀ alert response e,
      (fullRun (fun _ => some defaultMetrics) (fun _ => 0) "T" alert response).2 ≠ .failed e) :=
  stage_types_chain (fun _ => some defaultMetrics) (fun _ => 0) "T"

/-- A consumed correlation id can never be found again. -/
theorem findReq_removeReq (l : List PendingEntry) (cid : Nat) :
    findReq (removeReq l cid) cid = none := by
  induction l with
  | nil => rfl
  | cons e rest ih => by_cases h : e.cid = cid <;> simp [removeReq, findReq, h, ih]

/-- C4: resuming a correlation id that is open succeeds, removes the
entry from the pending-request table and invokes the origin executor's
response handler exactly once; a second resume of the same id is rejected
with `UnknownOrExpiredRequest` and does not invoke the handler again. -/
theorem resume_consumed_id_rejected (jl : String → Option Metrics)
    (ph : String → Int) (now : String) (st : EngineRun) (cid : Nat)
    (resp resp' : TriageApproval) (entry : PendingEntry)
    (h : findReq st.pending cid = some entry) :
    (∃ st'', resumeById jl ph now st cid resp = .ok st'') ∧
    ∀ st', resumeById jl ph now st cid resp = .ok st' →
      st'.responseHandlerCalls = st.responseHandlerCalls + 1 ∧
      st'.pending = removeReq st.pending cid ∧
      findReq st'.pending cid = none ∧
      resumeById jl ph now st' cid resp' = .error .UnknownOrExpiredRequest := by
  constructor
  · have hres : resumeById jl ph now st cid resp = .ok
        { pending := removeReq st.pending cid
          outputs := st.outputs ++
            (match (resumeFrom jl ph now entry.origin entry.payload resp).2 with
              | .completed outs => outs
              | _ => [])
          responseHandlerCalls := st.responseHandlerCalls + 1 } := by
      unfold resumeById
      rw [h]
    exact ⟨_, hres⟩
  · intro st' hok
    unfold resumeById at hok
    rw [h] at hok
    simp only [Except.ok.injEq] at hok
    subst hok
    exact ⟨rfl, rfl, findReq_removeReq _ _, by simp [resumeById, findReq_removeReq]⟩

/-- A concrete pending-request-table state with one open entry
(correlation id 7) whose payload is the triage of the default alert. -/
def witnessEngineRun : EngineRun :=
  { pending := [⟨7, .incident_triage,
      triage_of (process_alert (fun _ => some defaultMetrics) defaultAlert "T")⟩]
    outputs := []
    responseHandlerCalls := 0 }

/-- Witness for `resume_consumed_id_rejected` at the concrete one-entry
table. -/
theorem resume_consumed_id_rejected_witness :
    ((∃ st'', resumeById (fun _ => some defaultMetrics) (fun _ => 0) "T"
        witnessEngineRun 7 ⟨.approve, ""⟩ = .ok st'') ∧
     ∀ st', resumeById (fun _ => some defaultMetrics) (fun _ => 0) "T"
        witnessEngineRun 7 ⟨.approve, ""⟩ = .ok st' →
       st'.responseHandlerCalls = witnessEngineRun.responseHandlerCalls + 1 ∧
       st'.pending = removeReq witnessEngineRun.pending 7 ∧
       findReq st'.pending 7 = none ∧
       resumeById (fun _ => some defaultMetrics) (fun _ => 0) "T" st' 7
         ⟨.override_to_sev3, ""⟩ = .error .UnknownOrExpiredRequest) :=
  resume_consumed_id_rejected (fun _ => some defaultMetrics) (fun _ => 0) "T"
    witnessEngineRun 7 ⟨.approve, ""⟩ ⟨.override_to_sev3, ""⟩
    ⟨7, .incident_triage,
      triage_of (process_alert (fun _ => some defaultMetrics) defaultAlert "T")⟩ rfl

/-- Witness for `issue_number_in_range` at a concrete triage and a
negative hash value. -/
theorem issue_number_in_range_witness :
    1000 ≤ (create_issue (triage_of (process_alert (fun _ => some defaultMetrics)
      defaultAlert "T")) (-12345) "T").issue_number ∧
    (create_issue (triage_of (process_alert (fun _ => some defaultMetrics)
      defaultAlert "T")) (-12345) "T").issue_number ≤ 10999 ∧
    strEnds (create_issue (triage_of (process_alert (fun _ => some defaultMetrics)
        defaultAlert "T")) (-12345) "T").issue_url
      (toString (create_issue (triage_of (process_alert (fun _ => some defaultMetrics)
        defaultAlert "T")) (-12345) "T").issue_number) = true ∧
    (create_issue (triage_of (process_alert (fun _ => some defaultMetrics)
      defaultAlert "T")) (-12345) "T").labels.length = 4 ∧
    "incident" ∈ (create_issue (triage_of (process_alert (fun _ => some defaultMetrics)
      defaultAlert "T")) (-12345) "T").labels :=
  issue_number_in_range (triage_of (process_alert (fun _ => some defaultMetrics)
    defaultAlert "T")) (-12345) "T"
